import Mathlib

/-!
Verification development for the BioChem scraper package.

Shallow embedding of the concurrent retrieval-and-extraction engine shared
by the four scrapers (`protox.py`, `molsoft.py`, `admetlab.py`,
`knapsack.py`).  Network responses, the RDKit SMILES-to-MolBlock
conversion and the BeautifulSoup HTML parser are external collaborators;
they are passed in as explicit oracle functions, while the control flow of
the Python code (batching, fetch/retry, per-job error isolation, result
aggregation, joining) is translated definition by definition.

Python exceptions are modelled by `Except PyError`; `time.sleep` calls and
HTTP POSTs are recorded in an explicit trace.  Thread-pool completion
order (`as_completed`) is nondeterministic in the source; the model uses
submission order, which is one admissible linearization, and every theorem
below depends only on order-insensitive facts (lengths, membership,
per-job values) or is stated per job.
-/

/-- An optional extracted field value (Python `str` or `None`). -/
abbrev PyField := Option String

/-- The Python exceptions that the embedded code can raise. -/
inductive PyError where
  | valueError (msg : String)
  | runtimeError (msg : String)
  | connectionError (msg : String)
  | typeError (msg : String)
  | recursionError (msg : String)
  deriving Repr, DecidableEq

/-- An HTTP response as seen by the scrapers: `response.status_code` and
`response.text`. -/
structure HttpResponse where
  statusCode : Nat
  text : String
  deriving Repr, DecidableEq

/-- Character-list version of Python `text.startswith(sub)`. -/
def startsWithL : List Char → List Char → Bool
  | [], _ => true
  | _ :: _, [] => false
  | a :: as, b :: bs => a == b && startsWithL as bs

/-- Occurrence of `sub` at any position of `text` (character lists). -/
def occursInL (sub : List Char) : List Char → Bool
  | [] => sub.isEmpty
  | c :: cs => startsWithL sub (c :: cs) || occursInL sub cs

/-- Python's substring test `sub in text`. -/
def containsSub (sub text : String) : Bool :=
  occursInL sub.toList text.toList

/-- Python `str.strip()` on a character list: drop whitespace from both
ends. -/
def stripChars (l : List Char) : List Char :=
  ((l.dropWhile Char.isWhitespace).reverse.dropWhile Char.isWhitespace).reverse

/-- Python `str.strip()`. -/
def pyStrip (s : String) : String :=
  String.mk (stripChars s.toList)

/-- Python `text.split(":")` on a character list. -/
def splitColon : List Char → List (List Char)
  | [] => [[]]
  | c :: cs =>
    match splitColon cs with
    | [] => [[]]
    | h :: t => if c == ':' then [] :: h :: t else (c :: h) :: t

/-- Python `text.split(":")[-1]`: the segment after the last colon. -/
def afterLastColon (s : String) : String :=
  String.mk ((splitColon s.toList).getLastD [])

/-!
## Batcher (`admetlab.py`, line 250)

`chunks = [smiles_list[i:i + self.max_batch_size]
           for i in range(0, len(smiles_list), self.max_batch_size)]`

`range(0, n, m)` enumerates `0, m, 2m, ...` below `n`, i.e. `⌈n/m⌉`
starts, and the slice `lst[i:i+m]` is `(lst.drop i).take m`.
-/

/-- The batch-splitting comprehension of `AdmetLabScraper.run`. -/
def makeChunks (lst : List α) (m : Nat) : List (List α) :=
  (List.range ((lst.length + m - 1) / m)).map
    (fun k => (lst.drop (k * m)).take m)

/-- Unfolding `makeChunks` one step on a non-empty list. -/
theorem makeChunks_cons (lst : List α) (m : Nat) (hm : 0 < m)
    (hne : lst ≠ []) :
    makeChunks lst m = lst.take m :: makeChunks (lst.drop m) m := by
  have hn : 0 < lst.length := List.length_pos.2 hne
  have hcount : (lst.length + m - 1) / m
      = ((lst.length - m) + m - 1) / m + 1 := by
    rcases Nat.le_total lst.length m with hle | hle
    · have h1 : (lst.length + m - 1) / m = 1 := by
        have hlow : m ≤ lst.length + m - 1 := by omega
        have hhigh : lst.length + m - 1 < 2 * m := by omega
        have := Nat.div_eq_of_lt_le (by omega : 1 * m ≤ lst.length + m - 1)
          (by omega : lst.length + m - 1 < (1 + 1) * m)
        omega
      have h2 : lst.length - m = 0 := by omega
      rw [h1, h2]
      simp [Nat.div_eq_of_lt (by omega : m - 1 < m)]
    · have : lst.length + m - 1 = ((lst.length - m) + m - 1) + m := by omega
      rw [this, Nat.add_div_right _ hm]
  unfold makeChunks
  rw [List.length_drop, hcount, List.range_succ_eq_map]
  simp only [List.map_cons, Nat.zero_mul, List.drop_zero, List.map_map]
  congr 1
  apply List.map_congr_left
  intro k _
  simp only [Function.comp_apply, List.drop_drop]
  have hk : k.succ * m = m + k * m := by
    rw [Nat.succ_mul, Nat.add_comm]
  rw [hk]

/-- On the empty input, `makeChunks` produces no batches. -/
theorem makeChunks_eq_nil (m : Nat) (hm : 0 < m) :
    makeChunks ([] : List α) m = [] := by
  unfold makeChunks
  simp [Nat.div_eq_of_lt (by omega : m - 1 < m)]

/-- Every batch has size at most `m`. -/
theorem makeChunks_sizes (lst : List α) (m : Nat) :
    ∀ c ∈ makeChunks lst m, c.length ≤ m := by
  intro c hc
  unfold makeChunks at hc
  rcases List.mem_map.1 hc with ⟨k, _, rfl⟩
  simp

/-- The number of batches is `⌈n / m⌉ = (n + m - 1) / m`. -/
theorem makeChunks_count (lst : List α) (m : Nat) :
    (makeChunks lst m).length = (lst.length + m - 1) / m := by
  unfold makeChunks
  simp

/-- Auxiliary: concatenation of the batches restores the input, by
induction on a fuel bound for the list length. -/
theorem makeChunks_join_aux (m : Nat) (hm : 0 < m) :
    ∀ (fuel : Nat) (lst : List α), lst.length ≤ fuel →
      (makeChunks lst m).flatten = lst := by
  intro fuel
  induction fuel with
  | zero =>
    intro lst h
    have : lst = [] := List.length_eq_zero.1 (by omega)
    subst this
    rw [makeChunks_eq_nil m hm]
    rfl
  | succ fuel ih =>
    intro lst h
    by_cases hne : lst = []
    · subst hne
      rw [makeChunks_eq_nil m hm]
      rfl
    · have hn : 0 < lst.length := List.length_pos.2 hne
      rw [makeChunks_cons lst m hm hne, List.flatten_cons,
        ih (lst.drop m) (by rw [List.length_drop]; omega),
        List.take_append_drop]

/-- Concatenating the batches in order restores the input list. -/
theorem makeChunks_join (lst : List α) (m : Nat) (hm : 0 < m) :
    (makeChunks lst m).flatten = lst :=
  makeChunks_join_aux m hm lst.length lst le_rfl

/-!
## ProTox-II scraper (`protox.py`)
-/

/-- The throttle marker text checked at `protox.py` line 129. -/
def rateLimitMarker : String := "You reached the limit of allowed queries"

/-- The ProTox results page as seen through BeautifulSoup: the strings of
the `<h1>` elements that `soup.find("h1", string=...)` inspects.
BeautifulSoup itself is a total external collaborator (it parses any byte
string without raising). -/
structure ProtoxDoc where
  h1Texts : List String
  deriving Repr, DecidableEq

/-- The inner `extract_text` of `ProtoxScraper.parse_html` (lines
154-156): find the first `<h1>` whose string is truthy (non-empty) and
contains `label`; if found, strip it, keep the part after the last colon
and strip again, else `None`. -/
def protox_extract_text (doc : ProtoxDoc) (label : String) : PyField :=
  match doc.h1Texts.find? (fun s => !s.isEmpty && containsSub label s) with
  | some t => some (pyStrip (afterLastColon (pyStrip t)))
  | none => none

/-- One row of the ProTox result frame (`parse_html`, lines 158-164). -/
structure ProtoxRow where
  smiles : String
  predictedLD50 : PyField
  toxicityClass : PyField
  averageSimilarity : PyField
  predictionAccuracy : PyField
  deriving Repr, DecidableEq

/-- `ProtoxScraper.parse_html` (lines 141-166): always a one-row frame
keyed by the submitted SMILES; unmatched labels yield null fields. -/
def protox_parse_html (doc : ProtoxDoc) (smiles : String) : List ProtoxRow :=
  [{ smiles := smiles
     predictedLD50 := protox_extract_text doc "Predicted LD50"
     toxicityClass := protox_extract_text doc "Predicted Toxicity Class"
     averageSimilarity := protox_extract_text doc "Average similarity"
     predictionAccuracy := protox_extract_text doc "Prediction accuracy" }]

/-- The constructor state of `ProtoxScraper.__init__` (lines 70-81). -/
structure ProtoxScraper where
  max_workers : Nat
  auto_resume : Bool
  wait_minutes : Nat
  deriving Repr, DecidableEq

/-- Observable behaviour of one `fetch_html` call: its result, the number
of HTTP POSTs issued, and the `time.sleep` durations (seconds) in order. -/
structure FetchTrace where
  result : Except PyError String
  posts : Nat
  sleeps : List Nat
  deriving Repr

/-- `ProtoxScraper.fetch_html` (lines 102-139).  `molblock` is the RDKit
`smiles_to_molblock` collaborator (line 116; raises `ValueError` on an
invalid SMILES); `responses n` is the server's response to the n-th POST
issued for this SMILES.  The unbounded Python retry recursion runs on
explicit `fuel`; exhausting it models the `RecursionError` an infinitely
throttling server would eventually produce. -/
def protox_fetch_html (sc : ProtoxScraper)
    (molblock : String → Except String String)
    (responses : Nat → HttpResponse) (smiles : String) :
    Nat → Nat → FetchTrace
  | _, 0 =>
    { result := Except.error
        (PyError.recursionError "maximum recursion depth exceeded")
      posts := 0
      sleeps := [] }
  | attempt, fuel + 1 =>
    match molblock smiles with
    | Except.error msg =>
        { result := Except.error (PyError.valueError msg)
          posts := 0
          sleeps := [] }
    | Except.ok _ =>
      let resp := responses attempt
      if resp.statusCode ≠ 200 then
        { result := Except.error (PyError.connectionError
            ("Failed to retrieve data for " ++ smiles))
          posts := 1
          sleeps := [] }
      else if containsSub rateLimitMarker resp.text then
        if sc.auto_resume then
          let rest :=
            protox_fetch_html sc molblock responses smiles (attempt + 1) fuel
          { result := rest.result
            posts := 1 + rest.posts
            sleeps := sc.wait_minutes * 60 :: rest.sleeps }
        else
          { result := Except.error (PyError.runtimeError
              "Rate limit detected. Try again later.")
            posts := 1
            sleeps := [] }
      else
        { result := Except.ok resp.text
          posts := 1
          sleeps := [] }

/-- `ProtoxScraper.process_single` (lines 168-185): fetch then parse,
catching every raised error (`except Exception`) and returning the empty
frame on failure.  `soup` is the BeautifulSoup collaborator turning raw
HTML into the parsed view; `parse_html` itself cannot raise. -/
def protox_process_single (sc : ProtoxScraper)
    (molblock : String → Except String String)
    (soup : String → ProtoxDoc)
    (responses : Nat → HttpResponse) (fuel : Nat) (smiles : String) :
    List ProtoxRow :=
  match (protox_fetch_html sc molblock responses smiles 0 fuel).result with
  | Except.ok html => protox_parse_html (soup html) smiles
  | Except.error _ => []

/-- The result-collection loop plus final `pd.concat` shared verbatim by
`ProtoxScraper.run` (lines 222-232) and `MolsoftScraper.run` (lines
235-245): keep the non-empty per-job frames, then concatenate.
`pd.concat` of an empty list raises `ValueError("No objects to
concatenate")`. -/
def collect_and_concat (outcomes : List (List ρ)) :
    Except PyError (List ρ) :=
  let results := outcomes.filter (fun df => !df.isEmpty)
  if results.isEmpty then
    Except.error (PyError.valueError "No objects to concatenate")
  else
    Except.ok results.flatten

/-- `ProtoxScraper.run` (lines 187-234) on a list input: one job per
SMILES, one outcome per job, then the shared aggregation.  `responsesFor
s` is the response oracle of the job for `s`; completion order of
`as_completed` is modelled by submission order (all facts proved below
are order-insensitive). -/
def protox_run (sc : ProtoxScraper)
    (molblock : String → Except String String)
    (soup : String → ProtoxDoc)
    (responsesFor : String → Nat → HttpResponse) (fuel : Nat)
    (smiles_list : List String) : Except PyError (List ProtoxRow) :=
  collect_and_concat
    (smiles_list.map (fun s =>
      protox_process_single sc molblock soup (responsesFor s) fuel s))

/-!
## Molsoft scraper (`molsoft.py`)
-/

/-- A sibling node following a `<b>` tag, as BeautifulSoup sees it:
either a `NavigableString` (which has `.strip`) or a further truthy tag,
on which `.strip` resolves through the tag's attribute lookup to
`self.find("strip") = None`, so the subsequent call raises `TypeError`.
An empty `NavigableString` is falsy (`.text ""`); `.tag` stands for a
truthy tag sibling. -/
inductive BSibling where
  | text (s : String)
  | tag
  deriving Repr, DecidableEq

/-- A `<b>` element of the Molsoft response: its `.text` and its
`.next_sibling` (`none` models Python `None`). -/
structure BTag where
  text : String
  nextSibling : Option BSibling
  deriving Repr, DecidableEq

/-- The Molsoft page as seen through BeautifulSoup:
`soup.find_all("b")`. -/
structure MolsoftDoc where
  bTags : List BTag
  deriving Repr, DecidableEq

/-- The inner `get_value` of `MolsoftScraper.parse_html` (lines 143-147):
find the first `<b>` whose text contains `key`; if its `next_sibling` is
truthy, call `.strip()` on it — which raises when the sibling is a tag
rather than a string — else `None`. -/
def molsoft_get_value (doc : MolsoftDoc) (key : String) :
    Except PyError PyField :=
  match doc.bTags.find? (fun b => containsSub key b.text) with
  | none => Except.ok none
  | some tag =>
    match tag.nextSibling with
    | none => Except.ok none
    | some (BSibling.text s) =>
        if s.isEmpty then Except.ok none else Except.ok (some (pyStrip s))
    | some BSibling.tag =>
        Except.error (PyError.typeError "NoneType object is not callable")

/-- One row of the Molsoft result frame (`parse_html`, lines 161-174). -/
structure MolsoftRow where
  smiles : String
  molecularFormula : PyField
  molecularWeight : PyField
  hba : PyField
  hbd : PyField
  molLogP : PyField
  molLogS : PyField
  molPSA : PyField
  molVol : PyField
  pKa : PyField
  bbbScore : PyField
  stereoCenters : PyField
  deriving Repr, DecidableEq

/-- The post-processing applied to a fetched label value (lines 150-153
and 156-159 of `molsoft.py`): `None` stays `None`, a falsy (empty) string
yields `None`, and otherwise the `re.search`-based extraction `rgx` is
applied. -/
def molsoft_regex_field (rgx : String → Option String) : PyField → PyField
  | some s => if s.isEmpty then none else rgx s
  | none => none

/-- `MolsoftScraper.parse_html` (lines 129-176).  The two `re.search`
post-processing steps (lines 152 and 158) are modelled by the opaque pure
functions `logsRegex` and `bbbRegex`: `re.search` on a `str` never
raises, and `match.group(1) if match else None` is an optional string.
Python evaluates the `MolLogS` and `BBB Score` lookups first (lines 149
and 155), then the dict entries in order; the first lookup that raises
aborts the call. -/
def molsoft_parse_html (doc : MolsoftDoc)
    (logsRegex bbbRegex : String → Option String) (smiles : String) :
    Except PyError (List MolsoftRow) :=
  match molsoft_get_value doc "MolLogS :" with
  | Except.error e => Except.error e
  | Except.ok logsText =>
  match molsoft_get_value doc "BBB Score :" with
  | Except.error e => Except.error e
  | Except.ok bbbText =>
  match molsoft_get_value doc "Molecular formula:" with
  | Except.error e => Except.error e
  | Except.ok formula =>
  match molsoft_get_value doc "Molecular weight:" with
  | Except.error e => Except.error e
  | Except.ok weight =>
  match molsoft_get_value doc "Number of HBA:" with
  | Except.error e => Except.error e
  | Except.ok hba =>
  match molsoft_get_value doc "Number of HBD:" with
  | Except.error e => Except.error e
  | Except.ok hbd =>
  match molsoft_get_value doc "MolLogP :" with
  | Except.error e => Except.error e
  | Except.ok logp =>
  match molsoft_get_value doc "MolPSA :" with
  | Except.error e => Except.error e
  | Except.ok psa =>
  match molsoft_get_value doc "MolVol :" with
  | Except.error e => Except.error e
  | Except.ok vol =>
  match molsoft_get_value doc "pKa of most Basic/Acidic group :" with
  | Except.error e => Except.error e
  | Except.ok pka =>
  match molsoft_get_value doc "Number of stereo centers:" with
  | Except.error e => Except.error e
  | Except.ok stereo =>
      Except.ok [{ smiles := smiles
                   molecularFormula := formula
                   molecularWeight := weight
                   hba := hba
                   hbd := hbd
                   molLogP := logp
                   molLogS := molsoft_regex_field logsRegex logsText
                   molPSA := psa
                   molVol := vol
                   pKa := pka
                   bbbScore := molsoft_regex_field bbbRegex bbbText
                   stereoCenters := stereo }]

/-- `MolsoftScraper.fetch_html` (lines 98-127): convert to MolBlock, POST
once, raise `ConnectionError` unless the status is 200, else return the
body.  No rate-limit handling and no retry. -/
def molsoft_fetch_html (molblock : String → Except String String)
    (resp : HttpResponse) (smiles : String) : Except PyError String :=
  match molblock smiles with
  | Except.error msg => Except.error (PyError.valueError msg)
  | Except.ok _ =>
    if resp.statusCode ≠ 200 then
      Except.error (PyError.connectionError
        ("Failed to retrieve data for " ++ smiles))
    else
      Except.ok resp.text

/-- `MolsoftScraper.process_single` (lines 180-197): fetch then parse
inside `try`, catching every raised error and returning the empty frame;
here the extraction stage itself can raise (see `molsoft_get_value`). -/
def molsoft_process_single (molblock : String → Except String String)
    (soup : String → MolsoftDoc)
    (logsRegex bbbRegex : String → Option String)
    (resp : HttpResponse) (smiles : String) : List MolsoftRow :=
  match molsoft_fetch_html molblock resp smiles with
  | Except.error _ => []
  | Except.ok html =>
    match molsoft_parse_html (soup html) logsRegex bbbRegex smiles with
    | Except.ok df => df
    | Except.error _ => []

/-- `MolsoftScraper.run` (lines 200-247) on a list input: one job per
SMILES (`respFor s` is that job's HTTP response), one outcome per job,
then the shared aggregation. -/
def molsoft_run (molblock : String → Except String String)
    (soup : String → MolsoftDoc)
    (logsRegex bbbRegex : String → Option String)
    (respFor : String → HttpResponse)
    (smiles_list : List String) : Except PyError (List MolsoftRow) :=
  collect_and_concat
    (smiles_list.map (fun s =>
      molsoft_process_single molblock soup logsRegex bbbRegex (respFor s) s))

/-!
## ADMETlab scraper (`admetlab.py`)
-/

/-- The stored configuration of a successfully constructed
`AdmetLabScraper` (lines 99-100). -/
structure AdmetLabScraper where
  max_workers : Int
  max_batch_size : Int
  deriving Repr, DecidableEq

/-- `AdmetLabScraper.__init__` (lines 83-100): reject a `max_batch_size`
above 100 or below 1 with `ValueError` before any job runs, else store
both arguments unchanged. -/
def admetlab_init (max_workers max_batch_size : Int) :
    Except PyError AdmetLabScraper :=
  if max_batch_size > 100 then
    Except.error (PyError.valueError "Maximum batch size is 100.")
  else if max_batch_size < 1 then
    Except.error (PyError.valueError "Minimum batch size is 1.")
  else
    Except.ok { max_workers := max_workers, max_batch_size := max_batch_size }

/-- One row of the downloaded ADMETlab CSV; its schema is dictated by the
remote server, so a row is an association list of column values. -/
structure AdmetRow where
  fields : List (String × PyField)
  deriving Repr, DecidableEq

/-- `AdmetLabScraper._process_batch` (lines 202-228): the whole
session/token/submit/download protocol of the `try` block is the external
network collaborator `batchOracle`; any raised error is caught and the
empty frame returned. -/
def admetlab_process_batch
    (batchOracle : List String → Except PyError (List AdmetRow))
    (batch : List String) : List AdmetRow :=
  match batchOracle batch with
  | Except.ok df => df
  | Except.error _ => []

/-- `AdmetLabScraper.run` (lines 230-280) on a list input: split into
chunks of `max_batch_size`, one job per chunk, keep the non-empty frames
and concatenate them.  Unlike the other two `run`s this one is guarded:
an empty `results` list yields `pd.DataFrame()` instead of a `pd.concat`
call (line 278). -/
def admetlab_run (sc : AdmetLabScraper)
    (batchOracle : List String → Except PyError (List AdmetRow))
    (smiles_list : List String) : List AdmetRow :=
  let chunks := makeChunks smiles_list sc.max_batch_size.toNat
  let outcomes := chunks.map (admetlab_process_batch batchOracle)
  let results := outcomes.filter (fun df => !df.isEmpty)
  if results.isEmpty then [] else results.flatten

/-- Total number of HTTP POSTs issued across all jobs of one
`ProtoxScraper.run` call (the observable for "zero network calls"). -/
def protox_run_posts (sc : ProtoxScraper)
    (molblock : String → Except String String)
    (responsesFor : String → Nat → HttpResponse) (fuel : Nat)
    (smiles_list : List String) : Nat :=
  (smiles_list.map (fun s =>
    (protox_fetch_html sc molblock (responsesFor s) s 0 fuel).posts)).sum

/-!
## KNApSAcK scraper (`knapsack.py`)
-/

/-- One organism row of the detail page (`parse_organism_table`, lines
133-154). -/
structure OrganismRow where
  kingdom : String
  family : String
  species : String
  reference : String
  deriving Repr, DecidableEq

/-- The detail fields that `get_detail_by_cid` extracts from a
successfully fetched detail page — everything except the key `C_ID`,
which the code pins to its argument (line 172) before extraction and
never overwrites. -/
structure DetailFields where
  inchiKey : PyField
  inchiCode : PyField
  smiles : PyField
  imageUrl : PyField
  organism : Option (List OrganismRow)
  deriving Repr, DecidableEq

/-- All-null detail fields: the `except` dict of lines 212-215, and also
what a left join substitutes when no detail row matches. -/
def DetailFields.null : DetailFields :=
  { inchiKey := none
    inchiCode := none
    smiles := none
    imageUrl := none
    organism := none }

/-- A detail record as returned by `get_detail_by_cid`: key plus
fields. -/
structure Detail where
  cid : String
  fields : DetailFields
  deriving Repr, DecidableEq

/-- `KnapsackScraper.get_detail_by_cid` (lines 156-215): the detail-page
fetch and page-walk of the `try` block is the external collaborator
`detailOracle`; any raised error is caught and the all-null dict with the
same `C_ID` returned (lines 210-215). -/
def get_detail_by_cid (detailOracle : String → Except PyError DetailFields)
    (cid : String) : Detail :=
  match detailOracle cid with
  | Except.ok f => { cid := cid, fields := f }
  | Except.error _ => { cid := cid, fields := DetailFields.null }

/-- One row of the listing table parsed by `parse_main_table` (lines
105-130), keyed by `C_ID`. -/
structure MainRow where
  cid : String
  casId : String
  metabolite : String
  molecularFormula : String
  mw : String
  organismInfo : String
  deriving Repr, DecidableEq

/-- One row of the merged output of `search`: the listing columns plus
the detail columns, null where the join supplied no value. -/
structure MergedRow where
  main : MainRow
  fields : DetailFields
  deriving Repr, DecidableEq

/-- `pd.merge(df_main, df_detail, on="C_ID", how="left")` (line 260): for
each listing row in order, one output row per detail row with the same
`C_ID` (in detail order), or a single row with null detail columns when
none matches. -/
def merge_left (main : List MainRow) (details : List Detail) :
    List MergedRow :=
  (main.map (fun r =>
    match details.filter (fun d => d.cid == r.cid) with
    | [] => [{ main := r, fields := DetailFields.null }]
    | ds => ds.map (fun d => { main := r, fields := d.fields }))).flatten

/-- `KnapsackScraper.search` (lines 217-263) after the listing fetch: an
empty listing is returned as-is (lines 235-237); otherwise every `C_ID`
of the listing is looked up through `get_detail_by_cid` and the two
tables are left-joined on `C_ID`.  `as_completed` order is modelled by
submission order; the join is order-insensitive when the listing keys are
distinct. -/
def knapsack_search (detailOracle : String → Except PyError DetailFields)
    (df_main : List MainRow) : List MergedRow :=
  if df_main.isEmpty then [] else
    merge_left df_main
      (df_main.map (fun r => get_detail_by_cid detailOracle r.cid))

/-- A ProTox property label with no matching `<h1>` in the document (the
`h1 else None` branch of `extract_text`). -/
abbrev protox_label_missing (doc : ProtoxDoc) (label : String) : Prop :=
  doc.h1Texts.find? (fun s => !s.isEmpty && containsSub label s) = none

/-- A Molsoft property key with no matching `<b>` in the document (the
`None` branch of `get_value`). -/
abbrev molsoft_label_missing (doc : MolsoftDoc) (key : String) : Prop :=
  doc.bTags.find? (fun b => containsSub key b.text) = none

/-- A Molsoft document in which no `<b>` element is directly followed by
a (truthy) tag sibling — the condition under which every
`tag.next_sibling.strip()` call is well-typed. -/
abbrev molsoft_text_siblings (doc : MolsoftDoc) : Prop :=
  ∀ b ∈ doc.bTags, b.nextSibling ≠ some BSibling.tag

/-!
## Claim theorems
-/

/-- Helper for C3: every batch before the last has size exactly `m`. -/
theorem makeChunks_full (lst : List α) (m : Nat) (hm : 0 < m) (k : Nat)
    (hk : k + 1 < (makeChunks lst m).length) :
    ((makeChunks lst m).getD k []).length = m := by
  rw [makeChunks_count] at hk
  have e4 : (lst.length + m - 1) / m * m ≤ lst.length + m - 1 :=
    Nat.div_mul_le_self _ _
  have e2 : (k + 2) * m ≤ (lst.length + m - 1) / m * m :=
    Nat.mul_le_mul_right m (by omega)
  have e1 : (k + 2) * m = k * m + m + m := by ring
  have hkm : k * m + m ≤ lst.length := by omega
  have hk2 : k < (lst.length + m - 1) / m := by omega
  unfold makeChunks
  rw [List.getD_eq_getElem?_getD, List.getElem?_map, List.getElem?_range hk2]
  simp only [Option.map_some', Option.getD_some, List.length_take,
    List.length_drop]
  omega

/-- C3: for every identifier sequence of length `n` and every
`maxBatchSize` `m` with `1 ≤ m ≤ 100`, the batching comprehension of
`AdmetLabScraper.run` produces exactly `⌈n/m⌉ = (n + m - 1) / m` batches
(the two bound conjuncts pin this count down as the ceiling of `n / m`),
each batch has size at most `m`, every batch before the last has size
exactly `m` (only the last may be smaller), and concatenating the batches
in order restores the input sequence. -/
theorem batcher_correct (lst : List String) (m : Nat)
    (h1 : 1 ≤ m) (h2 : m ≤ 100) :
    (makeChunks lst m).length = (lst.length + m - 1) / m
    ∧ lst.length ≤ (makeChunks lst m).length * m
    ∧ (makeChunks lst m).length * m ≤ lst.length + m - 1
    ∧ (∀ c ∈ makeChunks lst m, c.length ≤ m)
    ∧ (∀ k, k + 1 < (makeChunks lst m).length →
        ((makeChunks lst m).getD k []).length = m)
    ∧ (makeChunks lst m).flatten = lst := by
  refine ⟨makeChunks_count lst m, ?_, ?_, makeChunks_sizes lst m,
    fun k hk => makeChunks_full lst m (by omega) k hk,
    makeChunks_join lst m (by omega)⟩
  · rw [makeChunks_count]
    rcases Nat.eq_zero_or_pos lst.length with h0 | hpos
    · omega
    · have hmod := Nat.div_add_mod (lst.length + m - 1) m
      have hmlt := Nat.mod_lt (lst.length + m - 1) (by omega : 0 < m)
      have e : m * ((lst.length + m - 1) / m)
          = (lst.length + m - 1) / m * m := Nat.mul_comm _ _
      omega
  · rw [makeChunks_count]
    exact Nat.div_mul_le_self _ _

/-- Witness for C3 at a concrete input: seven identifiers in batches of
two. -/
theorem batcher_correct_witness :
    (makeChunks ["a", "b", "c", "d", "e", "f", "g"] 2).length = 4
    ∧ (makeChunks ["a", "b", "c", "d", "e", "f", "g"] 2).flatten
        = ["a", "b", "c", "d", "e", "f", "g"] := by
  have h := batcher_correct ["a", "b", "c", "d", "e", "f", "g"] 2
    (by decide) (by decide)
  exact ⟨by rw [h.1]; rfl, h.2.2.2.2.2⟩

/-- C7: constructing the batching scraper with `max_batch_size` outside
`1..100` fails with a `ValueError` raised by `__init__` (so before any
job can run); for every value inside the range construction succeeds and
stores the configured value unchanged. -/
theorem admetlab_init_config (w m : Int) :
    ((1 ≤ m ∧ m ≤ 100) →
      admetlab_init w m =
        Except.ok { max_workers := w, max_batch_size := m })
    ∧ (¬(1 ≤ m ∧ m ≤ 100) →
      ∃ msg, admetlab_init w m = Except.error (PyError.valueError msg)) := by
  constructor
  · rintro ⟨ha, hb⟩
    unfold admetlab_init
    rw [if_neg (by omega), if_neg (by omega)]
  · intro hn
    unfold admetlab_init
    by_cases hgt : m > 100
    · rw [if_pos hgt]
      exact ⟨_, rfl⟩
    · have hlt : m < 1 := by omega
      rw [if_neg hgt, if_pos hlt]
      exact ⟨_, rfl⟩

/-- Witness for C7: `max_batch_size = 50` is accepted and stored,
`max_batch_size = 101` is rejected. -/
theorem admetlab_init_config_witness :
    admetlab_init 4 50 = Except.ok { max_workers := 4, max_batch_size := 50 }
    ∧ ∃ msg, admetlab_init 4 101 = Except.error (PyError.valueError msg) :=
  ⟨(admetlab_init_config 4 50).1 ⟨by decide, by decide⟩,
   (admetlab_init_config 4 101).2 (by decide)⟩

/-- C4: with `auto_resume = false`, a fetched document carrying the
rate-limit marker makes `fetch_html` surface the `RuntimeError`
immediately: exactly one POST, no sleep, and no second fetch for the
job. -/
theorem rate_limit_no_resume (sc : ProtoxScraper)
    (molblock : String → Except String String)
    (responses : Nat → HttpResponse) (smiles mb : String) (fuel : Nat)
    (hA : sc.auto_resume = false)
    (hmb : molblock smiles = Except.ok mb)
    (hfuel : 0 < fuel)
    (hstatus : (responses 0).statusCode = 200)
    (hmarker : containsSub rateLimitMarker (responses 0).text = true) :
    protox_fetch_html sc molblock responses smiles 0 fuel =
      { result := Except.error (PyError.runtimeError
          "Rate limit detected. Try again later.")
        posts := 1
        sleeps := [] } := by
  cases fuel with
  | zero => omega
  | succ f =>
    unfold protox_fetch_html
    rw [hmb]
    simp [hstatus, hmarker, hA]

/-- Witness for C4: a throttled first response with `auto_resume = false`
fails at once with one POST and no sleep. -/
theorem rate_limit_no_resume_witness :
    protox_fetch_html ⟨4, false, 10⟩ (fun _ => Except.ok "MB")
      (fun _ => ⟨200, rateLimitMarker⟩) "CCO" 0 3 =
      { result := Except.error (PyError.runtimeError
          "Rate limit detected. Try again later.")
        posts := 1
        sleeps := [] } :=
  rate_limit_no_resume ⟨4, false, 10⟩ (fun _ => Except.ok "MB")
    (fun _ => ⟨200, rateLimitMarker⟩) "CCO" "MB" 3 rfl rfl (by decide)
    rfl (by decide)

/-- Helper for C5, generalized over the starting attempt index: if the
`k` responses from attempt `a` on carry the throttle marker and the
response at attempt `a + k` does not, `fetch_html` with
`auto_resume = true` sleeps `wait_minutes * 60` seconds once per
detection, reissues exactly one POST per detection (`k + 1` POSTs in
all, for the same identifier), and returns the first unthrottled
body. -/
theorem protox_fetch_resume_aux (sc : ProtoxScraper)
    (molblock : String → Except String String)
    (responses : Nat → HttpResponse) (smiles mb : String)
    (hA : sc.auto_resume = true)
    (hmb : molblock smiles = Except.ok mb) :
    ∀ (k a fuel : Nat),
      (∀ i, i < k → (responses (a + i)).statusCode = 200 ∧
        containsSub rateLimitMarker (responses (a + i)).text = true) →
      (responses (a + k)).statusCode = 200 →
      containsSub rateLimitMarker (responses (a + k)).text = false →
      k < fuel →
      protox_fetch_html sc molblock responses smiles a fuel =
        { result := Except.ok (responses (a + k)).text
          posts := k + 1
          sleeps := List.replicate k (sc.wait_minutes * 60) } := by
  intro k
  induction k with
  | zero =>
    intro a fuel _ hst hmk hfuel
    cases fuel with
    | zero => omega
    | succ f =>
      unfold protox_fetch_html
      rw [hmb]
      rw [Nat.add_zero] at hst hmk
      simp [hst, hmk]
  | succ k ih =>
    intro a fuel hthr hst hmk hfuel
    cases fuel with
    | zero => omega
    | succ f =>
      have h0 := hthr 0 (by omega)
      rw [Nat.add_zero] at h0
      have hrec := ih (a + 1) f
        (fun i hi => by
          have e : a + 1 + i = a + (i + 1) := by omega
          rw [e]
          exact hthr (i + 1) (by omega))
        (by
          have e : a + 1 + k = a + (k + 1) := by omega
          rw [e]
          exact hst)
        (by
          have e : a + 1 + k = a + (k + 1) := by omega
          rw [e]
          exact hmk)
        (by omega)
      unfold protox_fetch_html
      rw [hmb]
      simp only [h0.1, h0.2, hA, hrec]
      have e : a + 1 + k = a + (k + 1) := by omega
      simp [e, List.replicate_succ]
      omega

/-- C5: with `auto_resume = true`, every throttled response causes the
job to sleep exactly `wait_minutes * 60` seconds and then re-invoke the
fetch for the same identifier — exactly one retry per throttle
detection, for an arbitrary number `k` of consecutive detections (no
bound on the total retries): the trace shows `k` sleeps of
`wait_minutes * 60` seconds each, `k + 1` POSTs, and the first
unthrottled body as result. -/
theorem rate_limit_auto_resume (sc : ProtoxScraper)
    (molblock : String → Except String String)
    (responses : Nat → HttpResponse) (smiles mb : String) (k fuel : Nat)
    (hA : sc.auto_resume = true)
    (hmb : molblock smiles = Except.ok mb)
    (hthr : ∀ i, i < k → (responses i).statusCode = 200 ∧
      containsSub rateLimitMarker (responses i).text = true)
    (hst : (responses k).statusCode = 200)
    (hmk : containsSub rateLimitMarker (responses k).text = false)
    (hfuel : k < fuel) :
    protox_fetch_html sc molblock responses smiles 0 fuel =
      { result := Except.ok (responses k).text
        posts := k + 1
        sleeps := List.replicate k (sc.wait_minutes * 60) } := by
  have h := protox_fetch_resume_aux sc molblock responses smiles mb hA hmb
    k 0 fuel
    (fun i hi => by rw [Nat.zero_add]; exact hthr i hi)
    (by rw [Nat.zero_add]; exact hst)
    (by rw [Nat.zero_add]; exact hmk)
    hfuel
  rw [Nat.zero_add] at h
  exact h

/-- Witness for C5: two consecutive throttled responses with
`auto_resume = true` and `wait_minutes = 10` produce two sleeps of 600
seconds, three POSTs, and the third response's body. -/
theorem rate_limit_auto_resume_witness :
    protox_fetch_html ⟨4, true, 10⟩ (fun _ => Except.ok "MB")
      (fun n => if n < 2 then ⟨200, rateLimitMarker⟩ else ⟨200, "done"⟩)
      "CCO" 0 5 =
      { result := Except.ok "done"
        posts := 3
        sleeps := [600, 600] } := by
  have h := rate_limit_auto_resume ⟨4, true, 10⟩ (fun _ => Except.ok "MB")
    (fun n => if n < 2 then ⟨200, rateLimitMarker⟩ else ⟨200, "done"⟩)
    "CCO" "MB" 2 5 rfl rfl
    (fun i hi => by
      match i, hi with
      | 0, _ => exact ⟨rfl, by decide⟩
      | 1, _ => exact ⟨rfl, by decide⟩)
    rfl (by decide) (by omega)
  exact h

/-- C1: per-job failure isolation in both single-identifier engines.
For every job list: (i) each engine produces exactly one outcome per
dispatched job; (ii) an error raised at the fetch or rate-limit stage
(or, for Molsoft, at the extraction stage) is caught by
`process_single`'s `except Exception` and becomes that job's empty-frame
failure outcome, so the error itself is never re-raised out of the job;
(iii) a job's outcome is a function of that job's own responses only, so
a failing job can neither abort nor alter a sibling's outcome. -/
theorem failure_isolation (sc : ProtoxScraper)
    (molblock : String → Except String String)
    (soupP : String → ProtoxDoc) (soupM : String → MolsoftDoc)
    (logsRegex bbbRegex : String → Option String)
    (respForP respForP' : String → Nat → HttpResponse)
    (respForM : String → HttpResponse)
    (fuel : Nat) (lst : List String) :
    ((lst.map (fun s =>
        protox_process_single sc molblock soupP (respForP s) fuel s)).length
      = lst.length
    ∧ (lst.map (fun s => molsoft_process_single molblock soupM logsRegex
        bbbRegex (respForM s) s)).length = lst.length)
    ∧ (∀ s e,
        (protox_fetch_html sc molblock (respForP s) s 0 fuel).result
          = Except.error e →
        protox_process_single sc molblock soupP (respForP s) fuel s = [])
    ∧ (∀ s e, molsoft_fetch_html molblock (respForM s) s = Except.error e →
        molsoft_process_single molblock soupM logsRegex bbbRegex
          (respForM s) s = [])
    ∧ (∀ s html e,
        molsoft_fetch_html molblock (respForM s) s = Except.ok html →
        molsoft_parse_html (soupM html) logsRegex bbbRegex s
          = Except.error e →
        molsoft_process_single molblock soupM logsRegex bbbRegex
          (respForM s) s = [])
    ∧ (∀ s, respForP s = respForP' s →
        protox_process_single sc molblock soupP (respForP s) fuel s =
        protox_process_single sc molblock soupP (respForP' s) fuel s) := by
  refine ⟨⟨by simp, by simp⟩, ?_, ?_, ?_, ?_⟩
  · intro s e he
    unfold protox_process_single
    rw [he]
  · intro s e he
    unfold molsoft_process_single
    rw [he]
  · intro s html e hok hpe
    unfold molsoft_process_single
    simp [hok, hpe]
  · intro s h
    rw [h]

/-- Witness for C1: a job whose fetch stage raises (invalid SMILES) is
converted to the empty-frame outcome. -/
theorem failure_isolation_witness :
    protox_process_single ⟨4, false, 10⟩
      (fun _ => Except.error "Invalid SMILES: X") (fun _ => ⟨[]⟩)
      (fun _ => ⟨200, "ok"⟩) 3 "X" = [] :=
  (failure_isolation ⟨4, false, 10⟩ (fun _ => Except.error "Invalid SMILES: X")
    (fun _ => ⟨[]⟩) (fun _ => ⟨[]⟩) (fun _ => none) (fun _ => none)
    (fun _ _ => ⟨200, "ok"⟩) (fun _ _ => ⟨200, "ok"⟩) (fun _ => ⟨200, "ok"⟩)
    3 ["X"]).2.1 "X" (PyError.valueError "Invalid SMILES: X") rfl

/-- C6 counterexample: with `auto_resume = false` and a rate-limited job
"A", `run` does not raise — the throttled job's `RuntimeError` is caught
inside `process_single` (it is an `Exception` subclass), only that job's
outcome is lost, and the sibling job "B"'s row is returned. -/
theorem rate_limit_run_not_aborted_cex :
    protox_run ⟨4, false, 10⟩ (fun _ => Except.ok "MB") (fun _ => ⟨[]⟩)
      (fun s _ => if s = "A" then ⟨200, rateLimitMarker⟩ else ⟨200, "ok"⟩) 3
      ["A", "B"]
    = Except.ok [⟨"B", none, none, none, none⟩] := rfl

/-- C6 amended: with `auto_resume = false`, a job whose fetch surfaces
the rate-limit `RuntimeError` does not escape job isolation: the
catch-all in `process_single` converts it into the job's empty-frame
failure outcome like every other error, and `run`'s aggregation receives
that per-job outcome in place, with every sibling's outcome unchanged —
the run is not aborted. -/
theorem rate_limit_failure_isolated (sc : ProtoxScraper)
    (molblock : String → Except String String) (soup : String → ProtoxDoc)
    (responses : Nat → HttpResponse) (smiles mb : String) (fuel : Nat)
    (hA : sc.auto_resume = false)
    (hmb : molblock smiles = Except.ok mb)
    (hfuel : 0 < fuel)
    (hstatus : (responses 0).statusCode = 200)
    (hmarker : containsSub rateLimitMarker (responses 0).text = true) :
    protox_process_single sc molblock soup responses fuel smiles = []
    ∧ ∀ (respFor : String → Nat → HttpResponse) (lst : List String),
        respFor smiles = responses →
        protox_run sc molblock soup respFor fuel lst =
          collect_and_concat (lst.map (fun t =>
            if t = smiles then []
            else protox_process_single sc molblock soup (respFor t)
              fuel t)) := by
  have hps : protox_process_single sc molblock soup responses fuel smiles
      = [] := by
    cases fuel with
    | zero => omega
    | succ f =>
      unfold protox_process_single protox_fetch_html
      rw [hmb]
      simp [hstatus, hmarker, hA]
  refine ⟨hps, ?_⟩
  intro respFor lst hre
  unfold protox_run
  congr 1
  apply List.map_congr_left
  intro t _
  by_cases hts : t = smiles
  · subst hts
    rw [if_pos rfl, hre]
    exact hps
  · rw [if_neg hts]

/-- Witness for the amended C6: a concrete throttled job yields the
empty-frame outcome rather than an escaping error. -/
theorem rate_limit_failure_isolated_witness :
    protox_process_single ⟨4, false, 10⟩ (fun _ => Except.ok "MB")
      (fun _ => ⟨[]⟩) (fun _ => ⟨200, rateLimitMarker⟩) 3 "A" = [] :=
  (rate_limit_failure_isolated ⟨4, false, 10⟩ (fun _ => Except.ok "MB")
    (fun _ => ⟨[]⟩) (fun _ => ⟨200, rateLimitMarker⟩) "A" "MB" 3 rfl rfl
    (by decide) rfl (by decide)).1

/-- Helper: `makeChunks` of the empty list is empty for every chunk
size. -/
theorem makeChunks_nil (m : Nat) : makeChunks ([] : List α) m = [] := by
  cases m with
  | zero => unfold makeChunks; simp
  | succ k => exact makeChunks_eq_nil _ (Nat.succ_pos k)

/-- C2: on the empty identifier list the guarded `AdmetLabScraper.run`
returns the empty frame after producing zero batches (zero network
jobs), and the per-identifier engines dispatch zero jobs (zero POSTs) —
but the unguarded final `pd.concat(results)` of `ProtoxScraper.run` and
`MolsoftScraper.run` is reached with an empty `results` list and raises
`ValueError("No objects to concatenate")` instead of returning an empty
table. -/
theorem empty_run_behaviour :
    (∀ (sc : ProtoxScraper) (molblock : String → Except String String)
       (soup : String → ProtoxDoc)
       (respFor : String → Nat → HttpResponse) (fuel : Nat),
      protox_run sc molblock soup respFor fuel [] =
        Except.error (PyError.valueError "No objects to concatenate"))
    ∧ (∀ (molblock : String → Except String String)
         (soupM : String → MolsoftDoc)
         (lr br : String → Option String) (respFor : String → HttpResponse),
      molsoft_run molblock soupM lr br respFor [] =
        Except.error (PyError.valueError "No objects to concatenate"))
    ∧ (∀ (sc : ProtoxScraper) (molblock : String → Except String String)
         (respFor : String → Nat → HttpResponse) (fuel : Nat),
      protox_run_posts sc molblock respFor fuel [] = 0)
    ∧ (∀ (sc : AdmetLabScraper)
         (batchOracle : List String → Except PyError (List AdmetRow)),
      admetlab_run sc batchOracle [] = []
      ∧ makeChunks ([] : List String) sc.max_batch_size.toNat = []) := by
  refine ⟨fun _ _ _ _ _ => rfl, fun _ _ _ _ _ => rfl, fun _ _ _ _ => rfl,
    fun sc oracle => ⟨?_, makeChunks_nil _⟩⟩
  unfold admetlab_run
  rw [makeChunks_nil]
  rfl

/-- Helper: a filter and its pointwise complement split the length of a
list. -/
theorem filter_complement_length (p q : α → Bool)
    (hpq : ∀ x, q x = !p x) :
    ∀ l : List α, (l.filter q).length + (l.filter p).length = l.length := by
  intro l
  induction l with
  | nil => rfl
  | cons a tl ih =>
    have hq := hpq a
    cases hpa : p a with
    | true =>
      rw [hpa] at hq
      simp [List.filter_cons, hpa, hq]
      omega
    | false =>
      rw [hpa] at hq
      simp [List.filter_cons, hpa, hq]
      omega

/-- Helper: flattening a map in which every listed job produces exactly
one record tagged with its identifier. -/
theorem flatten_map_singletons {ρ : Type} (outF : String → List ρ)
    (tag : ρ → String) :
    ∀ l : List String,
      (∀ s ∈ l, ∃ r, outF s = [r] ∧ tag r = s) →
      ((l.map outF).flatten.length = l.length
      ∧ ∀ r ∈ (l.map outF).flatten, tag r ∈ l) := by
  intro l
  induction l with
  | nil =>
    intro _
    exact ⟨rfl, by simp⟩
  | cons a tl ih =>
    intro h
    obtain ⟨r, hr, htag⟩ := h a (List.mem_cons_self a tl)
    obtain ⟨ih1, ih2⟩ := ih (fun s hs => h s (List.mem_cons_of_mem a hs))
    constructor
    · simp [hr, ih1]
    · intro x hx
      rw [List.map_cons, List.flatten_cons, hr] at hx
      rcases List.mem_append.1 hx with hx | hx
      · have hxr : x = r := by simpa using hx
        subst hxr
        rw [htag]
        exact List.mem_cons_self a tl
      · exact List.mem_cons_of_mem a (ih2 x hx)

/-- Helper: the shared aggregation applied to single-record outcomes with
at least one success returns a table with one row per succeeding job,
every row tagged with a succeeding identifier. -/
theorem collect_single_phase {ρ : Type} (outF : String → List ρ)
    (tag : ρ → String) (lst : List String)
    (hshape : ∀ s ∈ lst, outF s = [] ∨ ∃ r, outF s = [r] ∧ tag r = s)
    (hsome : ∃ s ∈ lst, outF s ≠ []) :
    ∃ df, collect_and_concat (lst.map outF) = Except.ok df
      ∧ df.length + (lst.filter (fun s => (outF s).isEmpty)).length
          = lst.length
      ∧ ∀ r ∈ df, tag r ∈ lst.filter (fun s => !(outF s).isEmpty) := by
  have hres : (lst.map outF).filter (fun df => !df.isEmpty)
      = (lst.filter (fun s => !(outF s).isEmpty)).map outF := by
    rw [List.filter_map]
    rfl
  have hgoodshape : ∀ s ∈ lst.filter (fun s => !(outF s).isEmpty),
      ∃ r, outF s = [r] ∧ tag r = s := by
    intro s hs
    have hmem := List.mem_filter.1 hs
    rcases hshape s hmem.1 with hnil | hr
    · exfalso
      have h2 := hmem.2
      rw [hnil] at h2
      simp at h2
    · exact hr
  obtain ⟨hlen, hmem⟩ := flatten_map_singletons outF tag
    (lst.filter (fun s => !(outF s).isEmpty)) hgoodshape
  have hne : ((lst.map outF).filter (fun df => !df.isEmpty)).isEmpty
      = false := by
    obtain ⟨s, hs, hnil⟩ := hsome
    rw [hres]
    have hsg : s ∈ lst.filter (fun s => !(outF s).isEmpty) :=
      List.mem_filter.2 ⟨hs, by simpa using hnil⟩
    cases hg : lst.filter (fun s => !(outF s).isEmpty) with
    | nil => rw [hg] at hsg; simp at hsg
    | cons g gs => rfl
  refine ⟨((lst.map outF).filter (fun df => !df.isEmpty)).flatten,
    ?_, ?_, ?_⟩
  · unfold collect_and_concat
    simp [hne]
  · rw [hres, hlen]
    have hc := filter_complement_length (fun s => (outF s).isEmpty)
      (fun s => !(outF s).isEmpty) (fun _ => rfl) lst
    omega
  · intro r hr
    rw [hres] at hr
    exact hmem r hr

/-- Helper: a ProTox job outcome is either the empty frame or a single
row keyed by the job's own SMILES. -/
theorem protox_process_shape (sc : ProtoxScraper)
    (molblock : String → Except String String) (soupP : String → ProtoxDoc)
    (responses : Nat → HttpResponse) (fuel : Nat) (s : String) :
    protox_process_single sc molblock soupP responses fuel s = []
    ∨ ∃ r, protox_process_single sc molblock soupP responses fuel s = [r]
        ∧ r.smiles = s := by
  unfold protox_process_single
  split
  · right
    exact ⟨_, rfl, rfl⟩
  · left
    rfl

/-- Helper: a successful Molsoft extraction is a single row keyed by the
submitted SMILES. -/
theorem molsoft_parse_ok_shape (doc : MolsoftDoc)
    (lr br : String → Option String) (smiles : String)
    (df : List MolsoftRow)
    (h : molsoft_parse_html doc lr br smiles = Except.ok df) :
    ∃ r, df = [r] ∧ r.smiles = smiles := by
  unfold molsoft_parse_html at h
  repeat' split at h
  all_goals first
    | exact Except.noConfusion h
    | (injection h with h2; exact ⟨_, h2.symm, rfl⟩)

/-- Helper: a Molsoft job outcome is either the empty frame or a single
row keyed by the job's own SMILES. -/
theorem molsoft_process_shape (molblock : String → Except String String)
    (soupM : String → MolsoftDoc) (lr br : String → Option String)
    (resp : HttpResponse) (s : String) :
    molsoft_process_single molblock soupM lr br resp s = []
    ∨ ∃ r, molsoft_process_single molblock soupM lr br resp s = [r]
        ∧ r.smiles = s := by
  unfold molsoft_process_single
  split
  · left
    rfl
  · split
    · rename_i df hdf
      rcases molsoft_parse_ok_shape _ _ _ _ _ hdf with ⟨r, rfl, hs⟩
      right
      exact ⟨r, rfl, hs⟩
    · left
      rfl

/-- C8 counterexample: with `n = 1` job and `k = 1` failure (an invalid
SMILES), the claim demands a returned table with `n - k = 0` rows, but
`ProtoxScraper.run` raises the `pd.concat` `ValueError` instead of
returning any table. -/
theorem all_failed_run_raises_cex :
    protox_run ⟨4, false, 10⟩ (fun _ => Except.error "Invalid SMILES: X")
      (fun _ => ⟨[]⟩) (fun _ _ => ⟨200, "ok"⟩) 3 ["X"]
    = Except.error (PyError.valueError "No objects to concatenate") := rfl

/-- C8 amended: provided at least one of the `n` single-phase jobs
succeeds (`k < n`), the returned table of `ProtoxScraper.run` and of
`MolsoftScraper.run` has exactly `n - k` rows (stated additively:
`rows + k = n`), and the identifier of every row is one of the
identifiers of the succeeding jobs — failed identifiers are absent, not
padded with nulls.  When all `n` jobs fail, `run` instead raises the
`pd.concat` `ValueError` (see the counterexample), so the premise is
necessary. -/
theorem partial_results_amended (sc : ProtoxScraper)
    (molblock : String → Except String String)
    (soupP : String → ProtoxDoc) (soupM : String → MolsoftDoc)
    (logsRegex bbbRegex : String → Option String)
    (respForP : String → Nat → HttpResponse)
    (respForM : String → HttpResponse) (fuel : Nat) (lst : List String) :
    ((∃ s ∈ lst,
        protox_process_single sc molblock soupP (respForP s) fuel s ≠ []) →
      ∃ df, protox_run sc molblock soupP respForP fuel lst = Except.ok df
        ∧ df.length + (lst.filter (fun s =>
            (protox_process_single sc molblock soupP (respForP s) fuel
              s).isEmpty)).length = lst.length
        ∧ ∀ row ∈ df, row.smiles ∈ lst.filter (fun s =>
            !(protox_process_single sc molblock soupP (respForP s) fuel
              s).isEmpty))
    ∧ ((∃ s ∈ lst, molsoft_process_single molblock soupM logsRegex bbbRegex
          (respForM s) s ≠ []) →
      ∃ df, molsoft_run molblock soupM logsRegex bbbRegex respForM lst
          = Except.ok df
        ∧ df.length + (lst.filter (fun s =>
            (molsoft_process_single molblock soupM logsRegex bbbRegex
              (respForM s) s).isEmpty)).length = lst.length
        ∧ ∀ row ∈ df, row.smiles ∈ lst.filter (fun s =>
            !(molsoft_process_single molblock soupM logsRegex bbbRegex
              (respForM s) s).isEmpty)) := by
  constructor
  · intro hsome
    exact collect_single_phase
      (fun s => protox_process_single sc molblock soupP (respForP s) fuel s)
      ProtoxRow.smiles lst
      (fun s _ => protox_process_shape sc molblock soupP (respForP s) fuel s)
      hsome
  · intro hsome
    exact collect_single_phase
      (fun s => molsoft_process_single molblock soupM logsRegex bbbRegex
        (respForM s) s)
      MolsoftRow.smiles lst
      (fun s _ => molsoft_process_shape molblock soupM logsRegex bbbRegex
        (respForM s) s)
      hsome

/-- Witness for the amended C8: two ProTox jobs of which "X" fails
(invalid SMILES) and "Y" succeeds yield a one-row table keyed by "Y". -/
theorem partial_results_amended_witness :
    ∃ df, protox_run ⟨4, false, 10⟩
        (fun s => if s = "X" then Except.error "Invalid SMILES: X"
          else Except.ok "MB")
        (fun _ => ⟨[]⟩) (fun _ _ => ⟨200, "ok"⟩) 3 ["X", "Y"]
        = Except.ok df
      ∧ df.length + ((["X", "Y"] : List String).filter (fun s =>
          (protox_process_single ⟨4, false, 10⟩
            (fun s => if s = "X" then Except.error "Invalid SMILES: X"
              else Except.ok "MB")
            (fun _ => ⟨[]⟩) ((fun (_ : String) (_ : Nat) =>
              (⟨200, "ok"⟩ : HttpResponse)) s) 3 s).isEmpty)).length = 2
      ∧ ∀ row ∈ df, row.smiles ∈ (["X", "Y"] : List String).filter (fun s =>
          !(protox_process_single ⟨4, false, 10⟩
            (fun s => if s = "X" then Except.error "Invalid SMILES: X"
              else Except.ok "MB")
            (fun _ => ⟨[]⟩) ((fun (_ : String) (_ : Nat) =>
              (⟨200, "ok"⟩ : HttpResponse)) s) 3 s).isEmpty) :=
  (partial_results_amended ⟨4, false, 10⟩
    (fun s => if s = "X" then Except.error "Invalid SMILES: X"
      else Except.ok "MB")
    (fun _ => ⟨[]⟩) (fun _ => ⟨[]⟩) (fun _ => none) (fun _ => none)
    (fun _ _ => ⟨200, "ok"⟩) (fun _ => ⟨200, "ok"⟩) 3 ["X", "Y"]).1
    ⟨"Y", by decide, by decide⟩

/-- Helper: `get_detail_by_cid` always returns a record keyed by its
argument, whether the detail lookup succeeded or failed. -/
theorem get_detail_cid (detailOracle : String → Except PyError DetailFields)
    (cid : String) : (get_detail_by_cid detailOracle cid).cid = cid := by
  unfold get_detail_by_cid
  split <;> rfl

/-- Helper: under distinct keys, filtering a keyed list for one member's
key returns exactly that member. -/
theorem filter_eq_singleton_of_nodup (main : List MainRow)
    (hnodup : (main.map MainRow.cid).Nodup) (r : MainRow) (hr : r ∈ main) :
    main.filter (fun x => x.cid == r.cid) = [r] := by
  induction main with
  | nil => cases hr
  | cons a tl ih =>
    rw [List.map_cons, List.nodup_cons] at hnodup
    rcases List.mem_cons.1 hr with rfl | hrtl
    · have htl : tl.filter (fun x => x.cid == r.cid) = [] := by
        rw [List.filter_eq_nil_iff]
        intro x hx
        simp only [beq_iff_eq]
        intro hcid
        exact hnodup.1 (hcid ▸ List.mem_map_of_mem MainRow.cid hx)
      rw [List.filter_cons, if_pos (by simp), htl]
    · have hne2 : (a.cid == r.cid) = false := by
        simp only [beq_eq_false_iff_ne, ne_eq]
        intro heq
        exact hnodup.1 (heq ▸ List.mem_map_of_mem MainRow.cid hrtl)
      rw [List.filter_cons, hne2]
      simp only [Bool.false_eq_true, if_false]
      exact ih hnodup.2 hrtl

/-- Helper: flattening a map of singleton lists is a plain map. -/
theorem flatten_map_single {α β : Type} (f : α → β) (l : List α) :
    (l.map (fun x => [f x])).flatten = l.map f := by
  induction l with
  | nil => rfl
  | cons a tl ih => simp [ih]

/-- Helper: with distinct listing keys, the left join of the listing with
the details generated from the listing itself is the pointwise merge. -/
theorem merge_left_nodup
    (detailOracle : String → Except PyError DetailFields)
    (main : List MainRow)
    (hnodup : (main.map MainRow.cid).Nodup) :
    merge_left main
      (main.map (fun x => get_detail_by_cid detailOracle x.cid))
    = main.map (fun r =>
        { main := r
          fields := (get_detail_by_cid detailOracle r.cid).fields }) := by
  unfold merge_left
  have hfil : ∀ r ∈ main,
      (main.map (fun x => get_detail_by_cid detailOracle x.cid)).filter
        (fun d => d.cid == r.cid)
      = [get_detail_by_cid detailOracle r.cid] := by
    intro r hr
    have hcomp : ((fun d => d.cid == r.cid) ∘
          (fun (x : MainRow) => get_detail_by_cid detailOracle x.cid))
        = fun (x : MainRow) => x.cid == r.cid :=
      funext fun x => by simp [Function.comp, get_detail_cid]
    rw [List.filter_map, hcomp,
      filter_eq_singleton_of_nodup main hnodup r hr]
    rfl
  have hmap : main.map (fun r =>
      match (main.map (fun x =>
          get_detail_by_cid detailOracle x.cid)).filter
        (fun d => d.cid == r.cid) with
      | [] => [({ main := r, fields := DetailFields.null } : MergedRow)]
      | ds => ds.map (fun d => { main := r, fields := d.fields }))
    = main.map (fun r =>
        [({ main := r
            fields := (get_detail_by_cid detailOracle r.cid).fields }
          : MergedRow)]) := by
    apply List.map_congr_left
    intro r hr
    rw [hfil r hr]
    rfl
  rw [hmap]
  exact flatten_map_single _ main

/-- C9: for the two-phase KNApSAcK source with a non-empty listing of
distinct keys, `search` is a left join of the listing with the per-key
detail results: the output has exactly one row per listing row, in
listing order, each carrying the detail fields looked up for its key;
when a key's detail lookup raised, those fields are the all-null record
(the base row is retained, not dropped), and when it succeeded they are
exactly the extracted detail fields. -/
theorem knapsack_left_join
    (detailOracle : String → Except PyError DetailFields)
    (main : List MainRow)
    (hnodup : (main.map MainRow.cid).Nodup) (hne : main ≠ []) :
    knapsack_search detailOracle main
      = main.map (fun r =>
          { main := r
            fields := (get_detail_by_cid detailOracle r.cid).fields })
    ∧ (knapsack_search detailOracle main).length = main.length
    ∧ ∀ r ∈ main,
        (({ main := r
            fields := (get_detail_by_cid detailOracle r.cid).fields }
          : MergedRow) ∈ knapsack_search detailOracle main
        ∧ (∀ e, detailOracle r.cid = Except.error e →
            (get_detail_by_cid detailOracle r.cid).fields
              = DetailFields.null)
        ∧ (∀ f, detailOracle r.cid = Except.ok f →
            (get_detail_by_cid detailOracle r.cid).fields = f)) := by
  have hie : main.isEmpty = false := by
    cases main with
    | nil => exact absurd rfl hne
    | cons a tl => rfl
  have hmain : knapsack_search detailOracle main
      = main.map (fun r =>
          { main := r
            fields := (get_detail_by_cid detailOracle r.cid).fields }) := by
    unfold knapsack_search
    simp only [hie, Bool.false_eq_true, if_false]
    exact merge_left_nodup detailOracle main hnodup
  refine ⟨hmain, by rw [hmain]; simp, ?_⟩
  intro r hr
  refine ⟨by rw [hmain]; exact List.mem_map_of_mem _ hr, ?_, ?_⟩
  · intro e he
    unfold get_detail_by_cid
    rw [he]
  · intro f hf
    unfold get_detail_by_cid
    rw [hf]

/-- Witness for C9: a two-row listing where the lookup for "C00002"
raises yields a two-row merged table whose second row keeps the base
columns with all-null detail fields. -/
theorem knapsack_left_join_witness :
    (knapsack_search
      (fun c => if c = "C00001"
        then Except.ok ⟨some "IK", some "IC", some "SM", some "URL", none⟩
        else Except.error (PyError.connectionError "404"))
      [⟨"C00001", "50-00-0", "m1", "C6H6", "78", "o1"⟩,
       ⟨"C00002", "50-00-1", "m2", "C7H8", "92", "o2"⟩]).length = 2
    ∧ ({ main := ⟨"C00002", "50-00-1", "m2", "C7H8", "92", "o2"⟩
         fields := DetailFields.null } : MergedRow)
      ∈ knapsack_search
        (fun c => if c = "C00001"
          then Except.ok ⟨some "IK", some "IC", some "SM", some "URL", none⟩
          else Except.error (PyError.connectionError "404"))
        [⟨"C00001", "50-00-0", "m1", "C6H6", "78", "o1"⟩,
         ⟨"C00002", "50-00-1", "m2", "C7H8", "92", "o2"⟩] := by
  have h := knapsack_left_join
    (fun c => if c = "C00001"
      then Except.ok ⟨some "IK", some "IC", some "SM", some "URL", none⟩
      else Except.error (PyError.connectionError "404"))
    [⟨"C00001", "50-00-0", "m1", "C6H6", "78", "o1"⟩,
     ⟨"C00002", "50-00-1", "m2", "C7H8", "92", "o2"⟩]
    (by decide) (by decide)
  refine ⟨h.2.1, ?_⟩
  have h2 := h.2.2 ⟨"C00002", "50-00-1", "m2", "C7H8", "92", "o2"⟩
    (by decide)
  have hnull := h2.2.1 (PyError.connectionError "404") rfl
  rw [hnull] at h2
  exact h2.1

/-- Helper for C10: on a document without tag siblings, every Molsoft
`get_value` lookup succeeds, and an unmatched key yields `None`. -/
theorem molsoft_get_value_good (doc : MolsoftDoc) (key : String)
    (hgood : molsoft_text_siblings doc) :
    ∃ v, molsoft_get_value doc key = Except.ok v
      ∧ (molsoft_label_missing doc key → v = none) := by
  cases hf : doc.bTags.find? (fun b => containsSub key b.text) with
  | none =>
    refine ⟨none, ?_, fun _ => rfl⟩
    simp [molsoft_get_value, hf]
  | some tag =>
    have htag : tag ∈ doc.bTags := List.mem_of_find?_eq_some hf
    have hns := hgood tag htag
    have hvac : molsoft_label_missing doc key → False := fun hmiss => by
      have hmiss2 : doc.bTags.find? (fun b => containsSub key b.text)
          = none := hmiss
      rw [hf] at hmiss2
      cases hmiss2
    cases hsib : tag.nextSibling with
    | none =>
      refine ⟨none, ?_, fun h => absurd h hvac⟩
      simp [molsoft_get_value, hf, hsib]
    | some sib =>
      cases sib with
      | text s =>
        by_cases hs : s.isEmpty = true
        · refine ⟨none, ?_, fun h => absurd h hvac⟩
          simp [molsoft_get_value, hf, hsib, hs]
        · refine ⟨some (pyStrip s), ?_, fun h => absurd h hvac⟩
          simp [molsoft_get_value, hf, hsib, hs]
      | tag => exact absurd hsib hns

/-- C10 counterexample: the Molsoft extractor is not total — on a
document whose matched `<b>` label is directly followed by another tag,
`tag.next_sibling.strip()` raises (the attribute resolves to
`find("strip") = None`, and calling it is a `TypeError`), so
`parse_html` raises instead of returning a row. -/
theorem molsoft_extractor_raises_cex :
    molsoft_parse_html ⟨[⟨"Molecular formula:", some BSibling.tag⟩]⟩
      (fun _ => none) (fun _ => none) "CCO"
    = Except.error (PyError.typeError "NoneType object is not callable")
    := rfl

/-- C10 amended: the ProTox extractor is total — for every document and
identifier it returns exactly one row whose SMILES field is that
identifier, with every unmatched property field null, and never raises.
The Molsoft extractor satisfies the same property whenever no matched
label's next sibling is a (truthy) tag node; when such a sibling occurs
it raises (see the counterexample). -/
theorem extractors_amended :
    (∀ (doc : ProtoxDoc) (smiles : String),
      ∃ r, protox_parse_html doc smiles = [r]
        ∧ r.smiles = smiles
        ∧ (protox_label_missing doc "Predicted LD50" →
            r.predictedLD50 = none)
        ∧ (protox_label_missing doc "Predicted Toxicity Class" →
            r.toxicityClass = none)
        ∧ (protox_label_missing doc "Average similarity" →
            r.averageSimilarity = none)
        ∧ (protox_label_missing doc "Prediction accuracy" →
            r.predictionAccuracy = none))
    ∧ (∀ (doc : MolsoftDoc) (lr br : String → Option String)
        (smiles : String), molsoft_text_siblings doc →
      ∃ r, molsoft_parse_html doc lr br smiles = Except.ok [r]
        ∧ r.smiles = smiles
        ∧ (molsoft_label_missing doc "Molecular formula:" →
            r.molecularFormula = none)
        ∧ (molsoft_label_missing doc "Molecular weight:" →
            r.molecularWeight = none)
        ∧ (molsoft_label_missing doc "Number of HBA:" → r.hba = none)
        ∧ (molsoft_label_missing doc "Number of HBD:" → r.hbd = none)
        ∧ (molsoft_label_missing doc "MolLogP :" → r.molLogP = none)
        ∧ (molsoft_label_missing doc "MolLogS :" → r.molLogS = none)
        ∧ (molsoft_label_missing doc "MolPSA :" → r.molPSA = none)
        ∧ (molsoft_label_missing doc "MolVol :" → r.molVol = none)
        ∧ (molsoft_label_missing doc "pKa of most Basic/Acidic group :" →
            r.pKa = none)
        ∧ (molsoft_label_missing doc "BBB Score :" → r.bbbScore = none)
        ∧ (molsoft_label_missing doc "Number of stereo centers:" →
            r.stereoCenters = none)) := by
  constructor
  · intro doc smiles
    refine ⟨_, rfl, rfl, ?_, ?_, ?_, ?_⟩ <;>
      (intro h; unfold protox_extract_text; rw [h])
  · intro doc lr br smiles hgood
    obtain ⟨v1, hv1, hm1⟩ := molsoft_get_value_good doc "MolLogS :" hgood
    obtain ⟨v2, hv2, hm2⟩ := molsoft_get_value_good doc "BBB Score :" hgood
    obtain ⟨v3, hv3, hm3⟩ :=
      molsoft_get_value_good doc "Molecular formula:" hgood
    obtain ⟨v4, hv4, hm4⟩ :=
      molsoft_get_value_good doc "Molecular weight:" hgood
    obtain ⟨v5, hv5, hm5⟩ := molsoft_get_value_good doc "Number of HBA:" hgood
    obtain ⟨v6, hv6, hm6⟩ := molsoft_get_value_good doc "Number of HBD:" hgood
    obtain ⟨v7, hv7, hm7⟩ := molsoft_get_value_good doc "MolLogP :" hgood
    obtain ⟨v8, hv8, hm8⟩ := molsoft_get_value_good doc "MolPSA :" hgood
    obtain ⟨v9, hv9, hm9⟩ := molsoft_get_value_good doc "MolVol :" hgood
    obtain ⟨v10, hv10, hm10⟩ :=
      molsoft_get_value_good doc "pKa of most Basic/Acidic group :" hgood
    obtain ⟨v11, hv11, hm11⟩ :=
      molsoft_get_value_good doc "Number of stereo centers:" hgood
    refine ⟨{ smiles := smiles
              molecularFormula := v3
              molecularWeight := v4
              hba := v5
              hbd := v6
              molLogP := v7
              molLogS := molsoft_regex_field lr v1
              molPSA := v8
              molVol := v9
              pKa := v10
              bbbScore := molsoft_regex_field br v2
              stereoCenters := v11 },
      ?_, rfl, ?_, ?_, ?_, ?_, ?_, ?_, ?_, ?_, ?_, ?_, ?_⟩
    · simp only [molsoft_parse_html, hv1, hv2, hv3, hv4, hv5, hv6, hv7,
        hv8, hv9, hv10, hv11]
    · intro h
      exact hm3 h
    · intro h
      exact hm4 h
    · intro h
      exact hm5 h
    · intro h
      exact hm6 h
    · intro h
      exact hm7 h
    · intro h
      rw [hm1 h]
      rfl
    · intro h
      exact hm8 h
    · intro h
      exact hm9 h
    · intro h
      exact hm10 h
    · intro h
      rw [hm2 h]
      rfl
    · intro h
      exact hm11 h

/-- Witness for the amended C10: on the empty document (no labels at
all, hence a tag-sibling-free document) both extractors return exactly
one row keyed by the submitted SMILES. -/
theorem extractors_amended_witness :
    (∃ r, protox_parse_html ⟨[]⟩ "CCO" = [r] ∧ r.smiles = "CCO")
    ∧ (∃ r, molsoft_parse_html ⟨[]⟩ (fun _ => none) (fun _ => none) "CCO"
        = Except.ok [r] ∧ r.smiles = "CCO") := by
  obtain ⟨r, h1, h2, _⟩ := extractors_amended.1 ⟨[]⟩ "CCO"
  obtain ⟨r2, g1, g2, _⟩ := extractors_amended.2 ⟨[]⟩
    (fun _ => none) (fun _ => none) "CCO" (fun b hb => by cases hb)
  exact ⟨⟨r, h1, h2⟩, ⟨r2, g1, g2⟩⟩
